import Mathlib

/-!
Verification of the security core of the rust-Blockchain-Demo1 repository.

The Rust sources under `src/src/security/` are shallowly embedded here:
`f64` values are modelled by `ℚ`, `U256`/`u32` quantities by `ℕ`, and
timestamps / `chrono::Duration` values by `ℤ` (seconds).  Stateful methods
become explicit state-passing functions.
-/

namespace BlockchainDemo

/-! ## Risk engine — `src/src/security/risk_engine.rs` -/

namespace RiskEngine

/-- `RiskFactorType` enum, risk_engine.rs lines 31-57. -/
inductive RiskFactorType
  | PriceVolatility | LiquidityRisk | ImpermanentLoss
  | SmartContractRisk | OracleRisk | BridgeRisk
  | ProtocolRisk | GovernanceRisk | CustodialRisk
  | FlashLoanRisk | MEVRisk | ReentrancyRisk | FrontrunningRisk
  | ComplianceRisk | JurisdictionRisk
deriving DecidableEq, Repr

/-- `RiskLevel` enum, risk_engine.rs lines 59-66. -/
inductive RiskLevel
  | VeryLow | Low | Medium | High | VeryHigh
deriving DecidableEq, Repr

/-- Numeric rank of a risk level, in the order the enum is declared
(VeryLow < Low < Medium < High < VeryHigh). -/
def RiskLevel.toIdx : RiskLevel → ℕ
  | .VeryLow => 0
  | .Low => 1
  | .Medium => 2
  | .High => 3
  | .VeryHigh => 4

/-- `RiskFactor` struct, risk_engine.rs lines 22-29 (the `description` and
`mitigation` strings play no role in the score computation and are omitted). -/
structure RiskFactor where
  factor_type : RiskFactorType
  severity : ℚ
  weight : ℚ
deriving DecidableEq, Repr

/-- `RiskEngine::calculate_overall_risk_score`, risk_engine.rs lines 566-582:
empty factor list gives 0; otherwise the weighted sum of `severity * weight`
is divided by the total weight and capped at 1 by `.min(1.0)` (when the total
weight is not positive the score is 0). -/
def calculate_overall_risk_score (risk_factors : List RiskFactor) : ℚ :=
  if risk_factors.isEmpty then 0
  else
    let weighted_sum := (risk_factors.map (fun f => f.severity * f.weight)).sum
    let total_weight := (risk_factors.map (fun f => f.weight)).sum
    if 0 < total_weight then min (weighted_sum / total_weight) 1 else 0

/-- `RiskEngine::determine_risk_level`, risk_engine.rs lines 585-593. -/
def determine_risk_level (score : ℚ) : RiskLevel :=
  if score < 2/10 then RiskLevel.VeryLow
  else if score < 4/10 then RiskLevel.Low
  else if score < 6/10 then RiskLevel.Medium
  else if score < 8/10 then RiskLevel.High
  else RiskLevel.VeryHigh

/-- Modelled from the spec words only (for the refinement claim C2):
"level thresholds: <0.2 VeryLow, <0.4 Low, <0.6 Medium, <0.8 High, else
VeryHigh". -/
def risk_level_spec (score : ℚ) : RiskLevel :=
  if score < 2/10 then RiskLevel.VeryLow
  else if score < 4/10 then RiskLevel.Low
  else if score < 6/10 then RiskLevel.Medium
  else if score < 8/10 then RiskLevel.High
  else RiskLevel.VeryHigh

end RiskEngine

/-! ## Oracle security — `src/src/security/oracle_security.rs` -/

namespace OracleSecurity

/-- `Severity` enum, oracle_security.rs lines 50-56. -/
inductive Severity
  | Low | Medium | High | Critical
deriving DecidableEq, Repr

/-- `AnomalyType` enum, oracle_security.rs lines 40-48. -/
inductive AnomalyType
  | PriceManipulation | FlashLoanAttack | StalePrice
  | ExtremeVolatility | CircuitBreaker | Outlier
deriving DecidableEq, Repr

/-- `CircuitBreaker` struct, oracle_security.rs lines 93-100.  Timestamps are
seconds (`ℤ`); `cooldown_period` is a duration in seconds. -/
structure CircuitBreaker where
  triggered : Bool
  trigger_time : Option ℤ
  threshold : ℚ
  cooldown_period : ℤ
  last_price : ℕ
deriving DecidableEq, Repr

/-- `OracleSecurity::trigger_circuit_breaker`, oracle_security.rs lines
325-335: sets `triggered` and stamps the trigger time with the current time. -/
def trigger_circuit_breaker (now : ℤ) (b : CircuitBreaker) : CircuitBreaker :=
  { b with triggered := true, trigger_time := some now }

/-- `OracleSecurity::is_circuit_breaker_triggered`, oracle_security.rs lines
338-357: a Triggered breaker self-resets to Armed when queried once
`now - trigger_time >= cooldown_period`; the query returns the reported
status together with the (possibly reset) breaker. -/
def is_circuit_breaker_triggered (now : ℤ) (b : CircuitBreaker) :
    CircuitBreaker × Bool :=
  if b.triggered then
    match b.trigger_time with
    | some t =>
      if now - t ≥ b.cooldown_period then
        ({ b with triggered := false, trigger_time := none }, false)
      else (b, true)
    | none => (b, true)
  else (b, false)

/-- Composition logic of `OracleSecurity::validate_price`, oracle_security.rs
lines 142-182: reject immediately when the breaker query reports Triggered;
otherwise accept exactly when *all five* checks (deviation, staleness,
volatility, flash-loan, correlation — lines 159-171, each of which consults
provider I/O or shared state and is therefore passed in as its boolean
outcome) pass, via `validations.iter().all(|&v| v)`. -/
def validate_price_given_checks (now : ℤ) (breaker : CircuitBreaker)
    (deviation_ok staleness_ok volatility_ok flash_loan_ok correlation_ok : Bool) :
    Bool :=
  if (is_circuit_breaker_triggered now breaker).2 then false
  else
    [deviation_ok, staleness_ok, volatility_ok, flash_loan_ok,
      correlation_ok].all id

/-- Insertion step of a stable ascending sort (models `Vec::sort()` on the
price values in `aggregate_prices`). -/
def insertSorted (x : ℕ) : List ℕ → List ℕ
  | [] => [x]
  | y :: ys => if x ≤ y then x :: y :: ys else y :: insertSorted x ys

/-- Ascending sort of the price values (models `price_values.sort()`). -/
def sortNat (l : List ℕ) : List ℕ := l.foldr insertSorted []

/-- `OracleSecurity::aggregate_prices` specialised to
`AggregationMethod::Median` (oracle_security.rs lines 376-392, the only
method the validator actually passes): sort the prices, take the middle
element, averaging the two middle elements (integer division) when the
count is even; the empty list aggregates to 0. -/
def aggregate_prices_median (prices : List ℕ) : ℕ :=
  if prices = [] then 0
  else
    let sorted := sortNat prices
    let mid := sorted.length / 2
    if sorted.length % 2 = 0 then (sorted.getD (mid - 1) 0 + sorted.getD mid 0) / 2
    else sorted.getD mid 0

/-- `OracleSecurity::calculate_deviation`, oracle_security.rs lines 431-443:
relative deviation |price1 - price2| / price2, with 100% deviation when the
reference is zero. -/
def calculate_deviation (price1 price2 : ℕ) : ℚ :=
  if price2 = 0 then 1
  else
    let diff := if price1 > price2 then price1 - price2 else price2 - price1
    (diff : ℚ) / (price2 : ℚ)

/-- `OracleSecurity::check_price_deviation`, oracle_security.rs lines
185-194: passes vacuously with no reference data, otherwise requires the
deviation from the median aggregate to stay within `max_deviation`. -/
def check_price_deviation (price : ℕ) (reference_prices : List ℕ)
    (max_deviation : ℚ) : Bool :=
  if reference_prices = [] then true
  else
    decide (calculate_deviation price (aggregate_prices_median reference_prices)
      ≤ max_deviation)

/-- `OracleAnomaly` struct, oracle_security.rs lines 29-38 (the timestamp and
oracle address fields play no role in the logic here and are omitted). -/
structure OracleAnomaly where
  anomaly_type : AnomalyType
  severity : Severity
  expected_price : ℕ
  actual_price : ℕ
  deviation_percentage : ℚ
deriving DecidableEq, Repr

/-- `OracleSecurity::handle_invalid_price`, oracle_security.rs lines 292-322:
recompute the deviation from the median of the reference prices, classify the
anomaly (>0.5 Critical, >0.2 High, >0.1 Medium, else Low; type
PriceManipulation when >0.5, else Outlier), and trip the source's circuit
breaker when the severity is High or Critical. -/
def handle_invalid_price (now : ℤ) (breaker : CircuitBreaker) (price : ℕ)
    (reference_prices : List ℕ) : OracleAnomaly × CircuitBreaker :=
  let aggregated_price := aggregate_prices_median reference_prices
  let deviation := calculate_deviation price aggregated_price
  let anomaly : OracleAnomaly :=
    { anomaly_type :=
        if deviation > 1/2 then AnomalyType.PriceManipulation
        else AnomalyType.Outlier
      severity :=
        if deviation > 1/2 then Severity.Critical
        else if deviation > 2/10 then Severity.High
        else if deviation > 1/10 then Severity.Medium
        else Severity.Low
      expected_price := aggregated_price
      actual_price := price
      deviation_percentage := deviation * 100 }
  let breaker2 :=
    if anomaly.severity = Severity.High ∨ anomaly.severity = Severity.Critical
    then trigger_circuit_breaker now breaker
    else breaker
  (anomaly, breaker2)

/-- An Armed breaker as `register_oracle` creates it (oracle_security.rs
lines 126-132): not triggered, no trigger time, 10-minute cooldown. -/
def registeredBreaker : CircuitBreaker :=
  { triggered := false, trigger_time := none, threshold := 1/10
    cooldown_period := 600, last_price := 0 }

end OracleSecurity

/-! ## MEV protection — `src/src/security/mev_protection.rs` -/

namespace MevProtection

/-- `MevType` enum, mev_protection.rs lines 12-20. -/
inductive MevType
  | Frontrunning | Backrunning | Sandwiching | Arbitrage | Liquidation | Unknown
deriving DecidableEq, Repr

/-- `MevThreat` struct, mev_protection.rs lines 22-31.  Addresses and hashes
are modelled as `ℕ`. -/
structure MevThreat where
  threat_type : MevType
  confidence : ℚ
  potential_value : ℕ
  detected_at : ℤ
  transaction_hash : Option ℕ
  attacker_address : Option ℕ
  block_number : Option ℕ
deriving DecidableEq, Repr

/-- `TransactionPattern` struct, mev_protection.rs lines 33-42.  Call data is
a byte list. -/
structure TransactionPattern where
  gas_price : ℕ
  gas_limit : ℕ
  to_address : Option ℕ
  value : ℕ
  data : List ℕ
  timestamp : ℤ
  from_address : ℕ
deriving DecidableEq, Repr

/-- The fields of ethers' `TransactionRequest` that the MEV detector reads
(`from`, `to`, `gas_price`, `gas`, `value`, `data`, all optional).  An ENS
name target — which the detector maps to "no address" — is modelled as
`to = none`. -/
structure TransactionRequest where
  tx_from : Option ℕ
  tx_to : Option ℕ
  gas_price : Option ℕ
  gas : Option ℕ
  value : Option ℕ
  data : Option (List ℕ)
deriving DecidableEq, Repr

/-- `MevProtection::is_similar_function_call`, mev_protection.rs lines
338-345: both call-data blobs must carry at least a 4-byte selector and the
selectors must agree. -/
def is_similar_function_call (data1 data2 : List ℕ) : Bool :=
  if data1.length < 4 ∨ data2.length < 4 then false
  else decide (data1.take 4 = data2.take 4)

/-- `MevProtection::detect_frontrunning`, mev_protection.rs lines 129-169:
scan the recent-transaction window front (oldest) to back; skip entries older
than 30 seconds; on the first windowed entry targeting the same contract with
the same selector and a *higher* gas price than the candidate, report a
Frontrunning threat with confidence 0.8 whose potential value is the recorded
transaction's value and whose attacker is the recorded sender. -/
def detect_frontrunning (now : ℤ) (recent_transactions : List TransactionPattern)
    (tx : TransactionRequest) : Option MevThreat :=
  match recent_transactions with
  | [] => none
  | recent_tx :: rest =>
    if now - recent_tx.timestamp > 30 then detect_frontrunning now rest tx
    else if recent_tx.to_address = tx.tx_to then
      if is_similar_function_call recent_tx.data (tx.data.getD []) then
        if recent_tx.gas_price > tx.gas_price.getD 0 then
          some { threat_type := MevType.Frontrunning, confidence := 8/10,
                 potential_value := recent_tx.value, detected_at := now,
                 transaction_hash := none,
                 attacker_address := some recent_tx.from_address,
                 block_number := none }
        else detect_frontrunning now rest tx
      else detect_frontrunning now rest tx
    else detect_frontrunning now rest tx

/-- `MevProtection::record_transaction`, mev_protection.rs lines 406-431:
append the candidate's pattern (with the current time and defaulted fields)
to the window and evict from the front down to 1000 entries. -/
def record_transaction (now : ℤ) (recent : List TransactionPattern)
    (tx : TransactionRequest) (sender : ℕ) : List TransactionPattern :=
  let pattern : TransactionPattern :=
    { gas_price := tx.gas_price.getD 0, gas_limit := tx.gas.getD 21000,
      to_address := tx.tx_to, value := tx.value.getD 0,
      data := tx.data.getD [], timestamp := now, from_address := sender }
  let recent2 := recent ++ [pattern]
  if recent2.length > 1000 then recent2.drop (recent2.length - 1000) else recent2

end MevProtection

/-! ## DeFi security rate limiting — `src/src/security/defi_security.rs` -/

namespace DefiSecurity

/-- `RateLimits` struct, defi_security.rs lines 129-134.  The cooldown is a
duration in seconds. -/
structure RateLimits where
  max_transactions_per_minute : ℕ
  max_value_per_hour : ℕ
  cooldown_period : ℤ
deriving DecidableEq, Repr

/-- The rate limiter's state for one sender address: its entries in the
`cooldowns`, `transaction_counts` and `value_sums` maps of the `RateLimiter`
(defi_security.rs lines 203-209). -/
structure SenderRateState where
  cooldown_until : Option ℤ
  tx_times : List ℤ
  value_history : List (ℤ × ℕ)
deriving DecidableEq, Repr

/-- The cooldown test at the top of `check_rate_limits` (defi_security.rs
lines 457-462): an entry in the cooldown map that lies in the future. -/
def cooldown_active (now : ℤ) (st : SenderRateState) : Bool :=
  match st.cooldown_until with
  | some cu => decide (now < cu)
  | none => false

/-- `DeFiSecurity::check_rate_limits`, defi_security.rs lines 453-501, for a
single sender.  Order of operations: (1) reject during an active cooldown;
(2) prune the transaction-count window to the rolling 60 s and, if the count
limit is reached, install a cooldown `now + cooldown_period` and reject;
(3) prune the value window to the rolling hour and reject (without any
cooldown) if the running total plus this value exceeds the hourly cap;
(4) only when both checks pass, record the transaction in both windows. -/
def check_rate_limits (now : ℤ) (value : ℕ) (limits : RateLimits)
    (st : SenderRateState) : Bool × SenderRateState :=
  if cooldown_active now st then (false, st)
  else
    let tx_times := st.tx_times.filter (fun t => decide (now - t ≤ 60))
    if tx_times.length ≥ limits.max_transactions_per_minute then
      (false, { st with
          cooldown_until := some (now + limits.cooldown_period),
          tx_times := tx_times })
    else
      let value_history := st.value_history.filter
        (fun p => decide (now - p.1 ≤ 3600))
      let total_value := (value_history.map Prod.snd).sum
      if total_value + value > limits.max_value_per_hour then
        (false, { st with
            tx_times := tx_times,
            value_history := value_history })
      else
        (true, { st with
            tx_times := tx_times ++ [now],
            value_history := value_history ++ [(now, value)] })

end DefiSecurity

/-! ## Audit trail — `src/src/security/audit_trail.rs` -/

namespace AuditTrail

/-- `AuditEntryType` enum, audit_trail.rs lines 32-72. -/
inductive AuditEntryType
  | TransactionSubmitted | TransactionExecuted | TransactionFailed
  | SecurityViolation | SuspiciousActivity | RiskAssessment | ThreatDetected
  | SystemStart | SystemStop | ConfigurationChange | EmergencyAction
  | UserLogin | UserAction | AdminAction
  | LiquidationEvent | FlashLoanExecution | ArbitrageTransaction
  | GovernanceVote
  | PriceUpdate | OracleFailure | PriceDeviation
  | ProtocolUpgrade | ParameterChange | PauseEvent | UnpauseEvent
deriving DecidableEq, Repr

/-- The `{:?}` debug name of an entry type, used as part of index keys. -/
def AuditEntryType.debugName : AuditEntryType → String
  | .TransactionSubmitted => "TransactionSubmitted"
  | .TransactionExecuted => "TransactionExecuted"
  | .TransactionFailed => "TransactionFailed"
  | .SecurityViolation => "SecurityViolation"
  | .SuspiciousActivity => "SuspiciousActivity"
  | .RiskAssessment => "RiskAssessment"
  | .ThreatDetected => "ThreatDetected"
  | .SystemStart => "SystemStart"
  | .SystemStop => "SystemStop"
  | .ConfigurationChange => "ConfigurationChange"
  | .EmergencyAction => "EmergencyAction"
  | .UserLogin => "UserLogin"
  | .UserAction => "UserAction"
  | .AdminAction => "AdminAction"
  | .LiquidationEvent => "LiquidationEvent"
  | .FlashLoanExecution => "FlashLoanExecution"
  | .ArbitrageTransaction => "ArbitrageTransaction"
  | .GovernanceVote => "GovernanceVote"
  | .PriceUpdate => "PriceUpdate"
  | .OracleFailure => "OracleFailure"
  | .PriceDeviation => "PriceDeviation"
  | .ProtocolUpgrade => "ProtocolUpgrade"
  | .ParameterChange => "ParameterChange"
  | .PauseEvent => "PauseEvent"
  | .UnpauseEvent => "UnpauseEvent"

/-- `AuditEntry` struct, audit_trail.rs lines 12-30, restricted to the fields
the compliance, retention and indexing logic reads (the free-form
`parameters`/`metadata` maps, `function_called`, `transaction_hash`,
`gas_price` and `error_message` are never consulted by that logic). -/
structure AuditEntry where
  id : String
  entry_type : AuditEntryType
  timestamp : ℤ
  user_address : Option ℕ
  contract_address : Option ℕ
  gas_used : Option ℕ
  value : Option ℕ
  success : Bool
  risk_score : Option ℚ
  security_flags : List String
deriving DecidableEq, Repr

/-- `ComplianceRuleType` enum, audit_trail.rs lines 123-130. -/
inductive ComplianceRuleType
  | TransactionValue (threshold : ℕ)
  | RiskScore (threshold : ℚ)
  | SecurityFlag (flag : String)
  | TransactionFrequency (n : ℕ)
  | GasUsage (threshold : ℕ)
deriving DecidableEq, Repr

/-- `ComplianceAction` enum, audit_trail.rs lines 132-139. -/
inductive ComplianceAction
  | LogWarning | BlockTransaction | RequireApproval
  | NotifyCompliance | GenerateReport
deriving DecidableEq, Repr

/-- `ComplianceRule` struct, audit_trail.rs lines 113-121 (the unused
`threshold` display field is omitted). -/
structure ComplianceRule where
  name : String
  description : String
  rule_type : ComplianceRuleType
  action : ComplianceAction
  enabled : Bool
deriving DecidableEq, Repr

/-- The per-rule violation predicate of `check_compliance_rules`,
audit_trail.rs lines 405-422 (the frequency rule is a stub that never
fires). -/
def rule_violation (rt : ComplianceRuleType) (e : AuditEntry) : Bool :=
  match rt with
  | .TransactionValue threshold => decide (e.value.getD 0 > threshold)
  | .RiskScore threshold => decide (e.risk_score.getD 0 > threshold)
  | .SecurityFlag flag => e.security_flags.contains flag
  | .GasUsage threshold => decide (e.gas_used.getD 0 > threshold)
  | .TransactionFrequency _ => false

/-- `AuditTrail::check_compliance_rules`, audit_trail.rs lines 397-451:
skip disabled rules; on a violating enabled rule, only the
`BlockTransaction` action aborts with an error — every other action is
logged and iteration continues. -/
def check_compliance_rules (rules : List ComplianceRule) (e : AuditEntry) :
    Except String Unit :=
  match rules with
  | [] => Except.ok ()
  | r :: rest =>
    if r.enabled = false then check_compliance_rules rest e
    else if rule_violation r.rule_type e = true then
      match r.action with
      | ComplianceAction.BlockTransaction =>
        Except.error ("Transaction blocked by compliance rule: " ++ r.name)
      | _ => check_compliance_rules rest e
    else check_compliance_rules rest e

/-- `RetentionPolicy` struct, audit_trail.rs lines 141-148 (day counts). -/
structure RetentionPolicy where
  default_retention_days : ℤ
  high_risk_retention_days : ℤ
  compliance_retention_days : ℤ
  archive_after_days : ℤ
  delete_after_days : ℤ
deriving DecidableEq, Repr

/-- The `while let Some(entry) = log.front()` loop of
`apply_retention_policy`, audit_trail.rs lines 527-541: pop the front entry
when it is older than the cutoff and not exempt (risk score > 0.7 or a
SecurityViolation); stop at the first entry that is kept. -/
def retention_loop (cutoff : ℤ) : List AuditEntry → List AuditEntry
  | [] => []
  | e :: rest =>
    if e.timestamp < cutoff then
      if ¬(e.risk_score.getD 0 > 7/10 ∨ e.entry_type = AuditEntryType.SecurityViolation)
      then retention_loop cutoff rest
      else e :: rest
    else e :: rest

/-- `AuditTrail::apply_retention_policy`, audit_trail.rs lines 523-544: the
cutoff is `now - default_retention_days` (days in seconds). -/
def apply_retention_policy (now : ℤ) (policy : RetentionPolicy)
    (log : List AuditEntry) : List AuditEntry :=
  retention_loop (now - policy.default_retention_days * 86400) log

/-- The Bool form of the eviction condition of the retention loop: older
than the cutoff and not exempt. -/
def retention_evict (cutoff : ℤ) (e : AuditEntry) : Bool :=
  decide (e.timestamp < cutoff) &&
    !(decide (e.risk_score.getD 0 > 7/10) ||
      decide (e.entry_type = AuditEntryType.SecurityViolation))

/-- One insertion into the id index map (`indices.entry(key).or_insert_with
(Vec::new).push(id)`, audit_trail.rs lines 547-569), on an association
list. -/
def index_insert (indices : List (String × List String)) (key : String)
    (id : String) : List (String × List String) :=
  if indices.any (fun p => p.1 = key) then
    indices.map (fun p => if p.1 = key then (p.1, p.2 ++ [id]) else p)
  else indices ++ [(key, [id])]

/-- `AuditTrail::update_indices`, audit_trail.rs lines 547-570: index the
entry id by actor address, contract address and entry type. -/
def update_indices (indices : List (String × List String)) (e : AuditEntry) :
    List (String × List String) :=
  let i1 := match e.user_address with
    | some a => index_insert indices ("user:" ++ toString a) e.id
    | none => indices
  let i2 := match e.contract_address with
    | some a => index_insert i1 ("contract:" ++ toString a) e.id
    | none => i1
  index_insert i2 ("type:" ++ e.entry_type.debugName) e.id

/-- The in-memory state of an `AuditTrail` touched by `log_entry`: the
time-ordered log, the field indices, the compliance rules and the retention
policy (audit_trail.rs lines 103-111; the storage backend is
`StorageBackend::Memory` and `persist_to_backend` is a no-op, lines
625-628). -/
structure AuditState where
  audit_log : List AuditEntry
  indexed_entries : List (String × List String)
  compliance_rules : List ComplianceRule
  retention_policy : RetentionPolicy
deriving DecidableEq, Repr

/-- `AuditTrail::log_entry`, audit_trail.rs lines 208-232: check compliance
rules first — a `BlockTransaction` violation propagates the error before any
mutation (the Rust `?` operator) — then append the entry (encryption is the
identity, lines 454-458), apply the retention policy and update the indices. -/
def log_entry (st : AuditState) (now : ℤ) (entry : AuditEntry) :
    AuditState × Except String Unit :=
  match check_compliance_rules st.compliance_rules entry with
  | Except.error msg => (st, Except.error msg)
  | Except.ok _ =>
    let log1 := st.audit_log ++ [entry]
    let log2 := apply_retention_policy now st.retention_policy log1
    ({ st with
        audit_log := log2,
        indexed_entries := update_indices st.indexed_entries entry },
      Except.ok ())

end AuditTrail

end BlockchainDemo

namespace BlockchainDemo

open RiskEngine

/-- Helper: the weighted average of severities is nonnegative and at most 1
whenever all severities lie in `[0,1]` and all weights are positive. -/
theorem weighted_avg_bounds (fs : List RiskFactor) (hne : fs ≠ [])
    (hb : ∀ f ∈ fs, 0 ≤ f.severity ∧ f.severity ≤ 1 ∧ 0 < f.weight) :
    0 < (fs.map (fun f => f.weight)).sum ∧
    0 ≤ (fs.map (fun f => f.severity * f.weight)).sum ∧
    (fs.map (fun f => f.severity * f.weight)).sum ≤ (fs.map (fun f => f.weight)).sum := by
  refine ⟨?_, ?_, ?_⟩
  · apply List.sum_pos
    · intro a ha
      rcases List.mem_map.mp ha with ⟨f, hf, rfl⟩
      exact (hb f hf).2.2
    · simpa using hne
  · apply List.sum_nonneg
    intro a ha
    rcases List.mem_map.mp ha with ⟨f, hf, rfl⟩
    exact mul_nonneg (hb f hf).1 (le_of_lt (hb f hf).2.2)
  · apply List.sum_le_sum
    intro f hf
    calc f.severity * f.weight ≤ 1 * f.weight :=
          mul_le_mul_of_nonneg_right (hb f hf).2.1 (le_of_lt (hb f hf).2.2)
      _ = f.weight := one_mul _

/-- C1: for every non-empty factor list with severities in [0,1] and positive
weights, `calculate_overall_risk_score` equals the weighted sum of
severity·weight divided by the total weight, clamped to [0,1]; and on the
concrete factor list [(SmartContractRisk, 0.8, 0.8), (LiquidityRisk, 0.2, 0.7)]
the score is 0.52 and the level is Medium. -/
theorem C1_overall_score_weighted_average :
    (∀ fs : List RiskFactor, fs ≠ [] →
      (∀ f ∈ fs, 0 ≤ f.severity ∧ f.severity ≤ 1 ∧ 0 < f.weight) →
      calculate_overall_risk_score fs =
        max 0 (min 1 ((fs.map (fun f => f.severity * f.weight)).sum /
          (fs.map (fun f => f.weight)).sum))) ∧
    calculate_overall_risk_score
      [⟨.SmartContractRisk, 8/10, 8/10⟩, ⟨.LiquidityRisk, 2/10, 7/10⟩] = 52/100 ∧
    determine_risk_level (52/100) = RiskLevel.Medium := by
  refine ⟨?_, by norm_num [calculate_overall_risk_score, min_def],
    by norm_num [determine_risk_level]⟩
  intro fs hne hb
  obtain ⟨htw, hws, hle⟩ := weighted_avg_bounds fs hne hb
  have hq0 : 0 ≤ (fs.map (fun f => f.severity * f.weight)).sum /
      (fs.map (fun f => f.weight)).sum := div_nonneg hws (le_of_lt htw)
  unfold calculate_overall_risk_score
  rw [if_neg (by simpa using hne), if_pos htw]
  rw [min_comm, max_eq_right (le_min (by norm_num) hq0)]

/-- Witness for C1: the general clause applied at the concrete two-factor
list of Scenario D. -/
theorem C1_witness :
    calculate_overall_risk_score
      [⟨.SmartContractRisk, 8/10, 8/10⟩, ⟨.LiquidityRisk, 2/10, 7/10⟩] =
      max 0 (min 1 ((([⟨.SmartContractRisk, 8/10, 8/10⟩,
        (⟨.LiquidityRisk, 2/10, 7/10⟩ : RiskFactor)].map
          (fun f => f.severity * f.weight)).sum) /
        (([⟨.SmartContractRisk, 8/10, 8/10⟩,
        (⟨.LiquidityRisk, 2/10, 7/10⟩ : RiskFactor)].map
          (fun f => f.weight)).sum))) :=
  C1_overall_score_weighted_average.1 _ (by simp)
    (by norm_num [List.forall_mem_cons])

/-- C2: `determine_risk_level` is exactly the step function the spec states
(<0.2 VeryLow, <0.4 Low, <0.6 Medium, <0.8 High, else VeryHigh), and is
monotone non-decreasing in the score with respect to the enum order. -/
theorem C2_risk_level_step_monotone :
    (∀ s : ℚ, determine_risk_level s = risk_level_spec s) ∧
    (∀ s t : ℚ, s ≤ t →
      (determine_risk_level s).toIdx ≤ (determine_risk_level t).toIdx) := by
  constructor
  · intro s; rfl
  · intro s t hst
    unfold determine_risk_level
    split_ifs <;> first | decide | (exfalso; linarith)

/-- Witness for C2: monotonicity applied at the concrete pair 0 ≤ 1. -/
theorem C2_witness :
    (determine_risk_level 0).toIdx ≤ (determine_risk_level 1).toIdx :=
  C2_risk_level_step_monotone.2 0 1 (by norm_num)

open OracleSecurity

/-- C3: oracle price validation is fail-closed — whenever exactly one of the
five checks fails while the other four pass, `validate_price` returns false;
and when the source's circuit breaker query reports Triggered, it returns
false for every combination of check outcomes (i.e. without depending on the
five checks at all). -/
theorem C3_validate_price_fail_closed :
    (∀ (now : ℤ) (b : CircuitBreaker) (c1 c2 c3 c4 c5 : Bool),
      ((c1 = false ∧ c2 = true ∧ c3 = true ∧ c4 = true ∧ c5 = true) ∨
       (c1 = true ∧ c2 = false ∧ c3 = true ∧ c4 = true ∧ c5 = true) ∨
       (c1 = true ∧ c2 = true ∧ c3 = false ∧ c4 = true ∧ c5 = true) ∨
       (c1 = true ∧ c2 = true ∧ c3 = true ∧ c4 = false ∧ c5 = true) ∨
       (c1 = true ∧ c2 = true ∧ c3 = true ∧ c4 = true ∧ c5 = false)) →
      validate_price_given_checks now b c1 c2 c3 c4 c5 = false) ∧
    (∀ (now : ℤ) (b : CircuitBreaker),
      (is_circuit_breaker_triggered now b).2 = true →
      ∀ c1 c2 c3 c4 c5 : Bool,
        validate_price_given_checks now b c1 c2 c3 c4 c5 = false) := by
  constructor
  · rintro now b c1 c2 c3 c4 c5
      (⟨rfl, rfl, rfl, rfl, rfl⟩ | ⟨rfl, rfl, rfl, rfl, rfl⟩ |
       ⟨rfl, rfl, rfl, rfl, rfl⟩ | ⟨rfl, rfl, rfl, rfl, rfl⟩ |
       ⟨rfl, rfl, rfl, rfl, rfl⟩) <;>
    simp [validate_price_given_checks]
  · intro now b h c1 c2 c3 c4 c5
    simp [validate_price_given_checks, h]

/-- Witness for C3: the deviation check failing alone rejects the price. -/
theorem C3_witness :
    validate_price_given_checks 0 registeredBreaker false true true true true
      = false :=
  C3_validate_price_fail_closed.1 0 registeredBreaker false true true true true
    (Or.inl ⟨rfl, rfl, rfl, rfl, rfl⟩)

/-- Helper: a triggered breaker whose cooldown has not yet elapsed is
reported Triggered by a query. -/
theorem is_cb_query_triggered (b : CircuitBreaker) (t now : ℤ)
    (hb : b.triggered = true) (ht : b.trigger_time = some t)
    (hcd : ¬(b.cooldown_period ≤ now - t)) :
    (is_circuit_breaker_triggered now b).2 = true := by
  simp [is_circuit_breaker_triggered, hb, ht, hcd]

/-- Helper: a triggered breaker whose cooldown has elapsed (inclusively) is
reported Armed by a query. -/
theorem is_cb_query_reset (b : CircuitBreaker) (t now : ℤ)
    (hb : b.triggered = true) (ht : b.trigger_time = some t)
    (hcd : b.cooldown_period ≤ now - t) :
    (is_circuit_breaker_triggered now b).2 = false := by
  simp [is_circuit_breaker_triggered, hb, ht, hcd]

/-- Helper: an un-triggered breaker is reported Armed by a query. -/
theorem is_cb_query_armed (b : CircuitBreaker) (now : ℤ)
    (hb : b.triggered = false) :
    (is_circuit_breaker_triggered now b).2 = false := by
  simp [is_circuit_breaker_triggered, hb]

/-- Counterexample for C4: the claim says a Triggered breaker is reported
Armed only *strictly after* trigger_time + cooldown.  But a breaker triggered
at time 0 with a 600 s cooldown is already reported Armed when queried at
exactly time 600, which is not strictly after 0 + 600 (the code resets on
`elapsed >= cooldown_period`, not `>`). -/
theorem C4_counterexample :
    (is_circuit_breaker_triggered 600
      (trigger_circuit_breaker 0 registeredBreaker)).2 = false ∧
    ¬((600 : ℤ) > 0 + 600) := by
  constructor
  · exact is_cb_query_reset _ 0 600 rfl rfl (show (600 : ℤ) ≤ 600 - 0 by norm_num)
  · norm_num

/-- C4 (amended): re-triggering an already-Triggered breaker at a later time
never shortens its cooldown (every query that reported Triggered before the
re-trigger still reports Triggered after it); and a Triggered breaker with
trigger time t is reported Armed by a query exactly when `now ≥ t + cooldown`
(at or after, not strictly after), so every query strictly before
`t + cooldown` reports it Triggered. -/
theorem C4_breaker_cooldown :
    (∀ (b : CircuitBreaker) (t0 t1 now : ℤ),
      b.trigger_time = some t0 → t0 ≤ t1 →
      (is_circuit_breaker_triggered now b).2 = true →
      (is_circuit_breaker_triggered now (trigger_circuit_breaker t1 b)).2 = true) ∧
    (∀ (b : CircuitBreaker) (t now : ℤ),
      b.triggered = true → b.trigger_time = some t →
      ((is_circuit_breaker_triggered now b).2 = false ↔
        now ≥ t + b.cooldown_period)) := by
  constructor
  · intro b t0 t1 now ht hle htrig
    by_cases hb : b.triggered
    · have hcd : ¬(b.cooldown_period ≤ now - t0) := by
        intro hcd
        rw [is_cb_query_reset b t0 now hb ht hcd] at htrig
        exact Bool.false_ne_true htrig
      exact is_cb_query_triggered _ t1 now rfl rfl
        (show ¬(b.cooldown_period ≤ now - t1) by omega)
    · rw [is_cb_query_armed b now (Bool.not_eq_true _ |>.mp hb)] at htrig
      exact absurd htrig (by simp)
  · intro b t now hb ht
    constructor
    · intro hfalse
      by_contra hlt
      rw [is_cb_query_triggered b t now hb ht (by omega)] at hfalse
      exact absurd hfalse (by simp)
    · intro hge
      exact is_cb_query_reset b t now hb ht (by omega)

/-- Witness for C4: the Armed-iff-cooldown-elapsed clause applied to a breaker
triggered at time 0 with a 600 s cooldown, queried at time 600. -/
theorem C4_witness :
    ((is_circuit_breaker_triggered 600
        (trigger_circuit_breaker 0 registeredBreaker)).2 = false ↔
      (600 : ℤ) ≥ 0 + (trigger_circuit_breaker 0 registeredBreaker).cooldown_period) :=
  C4_breaker_cooldown.2 (trigger_circuit_breaker 0 registeredBreaker) 0 600 rfl rfl

/-- C7: when a candidate price is rejected, `handle_invalid_price` classifies
the anomaly severity by the deviation from the median of the reference prices
(>50% Critical, >20% High, >10% Medium, else Low), trips the source's circuit
breaker exactly for High/Critical, and leaves the breaker untouched otherwise;
in Scenario A (5% max-deviation source, reference median 2000, candidate 2500)
the deviation check fails at 25% deviation, the severity is High, and the
breaker trips. -/
theorem C7_invalid_price_severity :
    (∀ (now : ℤ) (b : CircuitBreaker) (price : ℕ) (refs : List ℕ),
      (handle_invalid_price now b price refs).1.severity =
        (if calculate_deviation price (aggregate_prices_median refs) > 1/2 then
          Severity.Critical
        else if calculate_deviation price (aggregate_prices_median refs) > 2/10 then
          Severity.High
        else if calculate_deviation price (aggregate_prices_median refs) > 1/10 then
          Severity.Medium
        else Severity.Low) ∧
      ((handle_invalid_price now b price refs).1.severity = Severity.High ∨
        (handle_invalid_price now b price refs).1.severity = Severity.Critical →
        (handle_invalid_price now b price refs).2.triggered = true) ∧
      (¬((handle_invalid_price now b price refs).1.severity = Severity.High ∨
        (handle_invalid_price now b price refs).1.severity = Severity.Critical) →
        (handle_invalid_price now b price refs).2 = b)) ∧
    (check_price_deviation 2500 [1900, 2000, 2100] (1/20) = false ∧
      calculate_deviation 2500 (aggregate_prices_median [1900, 2000, 2100]) = 1/4 ∧
      (handle_invalid_price 0 registeredBreaker 2500
        [1900, 2000, 2100]).1.severity = Severity.High ∧
      (handle_invalid_price 0 registeredBreaker 2500
        [1900, 2000, 2100]).2.triggered = true) := by
  have hmed : aggregate_prices_median [1900, 2000, 2100] = 2000 := by decide
  have hdev : calculate_deviation 2500 2000 = 1/4 := by
    norm_num [calculate_deviation]
  have hsev : ∀ (now : ℤ) (b : CircuitBreaker) (price : ℕ) (refs : List ℕ),
      (handle_invalid_price now b price refs).1.severity =
        (if calculate_deviation price (aggregate_prices_median refs) > 1/2 then
          Severity.Critical
        else if calculate_deviation price (aggregate_prices_median refs) > 2/10 then
          Severity.High
        else if calculate_deviation price (aggregate_prices_median refs) > 1/10 then
          Severity.Medium
        else Severity.Low) := fun _ _ _ _ => rfl
  have htrip : ∀ (now : ℤ) (b : CircuitBreaker) (price : ℕ) (refs : List ℕ),
      (handle_invalid_price now b price refs).1.severity = Severity.High ∨
        (handle_invalid_price now b price refs).1.severity = Severity.Critical →
      (handle_invalid_price now b price refs).2.triggered = true := by
    intro now b price refs h
    show (if (handle_invalid_price now b price refs).1.severity = Severity.High ∨
            (handle_invalid_price now b price refs).1.severity = Severity.Critical
          then trigger_circuit_breaker now b else b).triggered = true
    rw [if_pos h]
    rfl
  have huntrip : ∀ (now : ℤ) (b : CircuitBreaker) (price : ℕ) (refs : List ℕ),
      ¬((handle_invalid_price now b price refs).1.severity = Severity.High ∨
        (handle_invalid_price now b price refs).1.severity = Severity.Critical) →
      (handle_invalid_price now b price refs).2 = b := by
    intro now b price refs h
    show (if (handle_invalid_price now b price refs).1.severity = Severity.High ∨
            (handle_invalid_price now b price refs).1.severity = Severity.Critical
          then trigger_circuit_breaker now b else b) = b
    rw [if_neg h]
  have hhigh : (handle_invalid_price 0 registeredBreaker 2500
      [1900, 2000, 2100]).1.severity = Severity.High := by
    rw [hsev, hmed, hdev]
    norm_num
  refine ⟨fun now b price refs => ⟨hsev now b price refs, htrip now b price refs,
    huntrip now b price refs⟩, ?_, by rw [hmed]; exact hdev, hhigh,
    htrip 0 registeredBreaker 2500 [1900, 2000, 2100] (Or.inl hhigh)⟩
  simp only [check_price_deviation, hmed]
  rw [if_neg (by simp), hdev]
  simp only [decide_eq_false_iff_not]
  norm_num

/-- Witness for C7: the breaker-trips clause applied at the Scenario A
input, with the High-severity hypothesis discharged by the scenario clause. -/
theorem C7_witness :
    (handle_invalid_price 0 registeredBreaker 2500
      [1900, 2000, 2100]).2.triggered = true :=
  (C7_invalid_price_severity.1 0 registeredBreaker 2500 [1900, 2000, 2100]).2.1
    (Or.inl C7_invalid_price_severity.2.2.2.1)

open MevProtection

/-- The first (earlier, recorded) transaction of Scenario C: gas price 100,
target contract 7, selector bytes [1,2,3,4], sent at time 0 by address 42. -/
def c8_first : TransactionRequest :=
  { tx_from := some 42, tx_to := some 7, gas_price := some 100, gas := some 21000,
    value := some 5, data := some [1, 2, 3, 4] }

/-- The second (candidate) transaction of Scenario C: same contract and
selector, analyzed 2 seconds later, with a 50% higher gas price (150). -/
def c8_second : TransactionRequest :=
  { tx_from := some 43, tx_to := some 7, gas_price := some 150, gas := some 21000,
    value := some 5, data := some [1, 2, 3, 4] }

/-- Counterexample for C8: with the first transaction recorded at time 0 and
the second analyzed at time 2 against the same contract and selector with a
50% *higher* gas price, `detect_frontrunning` emits no threat at all — the
code only fires when the *recorded* transaction's gas price exceeds the
candidate's (`recent_tx.gas_price > tx.gas_price`), the opposite of the
claimed direction. -/
theorem C8_counterexample :
    c8_second.gas_price.getD 0 * 2 = c8_first.gas_price.getD 0 * 3 ∧
    c8_second.tx_to = c8_first.tx_to ∧
    is_similar_function_call (c8_first.data.getD []) (c8_second.data.getD [])
      = true ∧
    detect_frontrunning 2 (record_transaction 0 [] c8_first 42) c8_second
      = none := by
  decide

/-- C8 (amended): when a candidate transaction is analyzed within the
30-second window after a recorded transaction targeting the same contract and
function selector, and the *recorded* transaction carries the strictly higher
gas price (e.g. 50% higher than the candidate), the MEV detector emits a
Frontrunning threat for the candidate with confidence 0.8, naming the
recorded sender as the attacker. -/
theorem C8_frontrunning_detection (now : ℤ) (rtx : TransactionPattern)
    (tx : TransactionRequest)
    (h1 : now - rtx.timestamp ≤ 30)
    (h2 : rtx.to_address = tx.tx_to)
    (h3 : is_similar_function_call rtx.data (tx.data.getD []) = true)
    (h4 : rtx.gas_price > tx.gas_price.getD 0) :
    detect_frontrunning now [rtx] tx =
      some { threat_type := MevType.Frontrunning, confidence := 8/10,
             potential_value := rtx.value, detected_at := now,
             transaction_hash := none,
             attacker_address := some rtx.from_address,
             block_number := none } := by
  unfold detect_frontrunning
  rw [if_neg (by omega), if_pos h2, if_pos h3, if_pos h4]

/-- Witness for C8: a recorded transaction with gas price 150 frontrunning a
candidate with gas price 100, two seconds apart, on contract 7 with selector
[1,2,3,4]. -/
theorem C8_witness :
    detect_frontrunning 2
      [{ gas_price := 150, gas_limit := 21000, to_address := some 7,
         value := 5, data := [1, 2, 3, 4], timestamp := 0, from_address := 42 }]
      c8_first =
      some { threat_type := MevType.Frontrunning, confidence := 8/10,
             potential_value := 5, detected_at := 2,
             transaction_hash := none, attacker_address := some 42,
             block_number := none } :=
  C8_frontrunning_detection 2
    { gas_price := 150, gas_limit := 21000, to_address := some 7,
      value := 5, data := [1, 2, 3, 4], timestamp := 0, from_address := 42 }
    c8_first (by decide) (by decide) (by decide) (by decide)

open DefiSecurity

/-- The rate limits of the C5 scenario: 10 transactions per minute, value cap
100 per hour, 300 s cooldown. -/
def c5_limits : RateLimits :=
  { max_transactions_per_minute := 10, max_value_per_hour := 100,
    cooldown_period := 300 }

/-- A sender that has already moved value 80 at time 0 and sends value 30 at
time 10 (within the rolling hour). -/
def c5_state : SenderRateState :=
  { cooldown_until := none, tx_times := [], value_history := [(0, 80)] }

/-- Counterexample for C5: exceeding the rolling-hour value limit (80 + 30 >
100 at time 10) rejects the transaction but installs *no* cooldown — the code
only installs a cooldown for the transaction-count limit — so a further small
transaction from the same sender 10 seconds later (well inside the claimed
cooldown window) is accepted. -/
theorem C5_counterexample :
    (check_rate_limits 10 30 c5_limits c5_state).1 = false ∧
    (check_rate_limits 10 30 c5_limits c5_state).2.cooldown_until = none ∧
    (check_rate_limits 20 5 c5_limits
      (check_rate_limits 10 30 c5_limits c5_state).2).1 = true := by
  decide

/-- C5 (amended): with a per-sender limit of N transactions per rolling
60-second window, the (N+1)-th transaction within the window is rejected and
installs a cooldown of `now + cooldown_period`; during an active cooldown
every transaction from that sender is rejected with the state untouched; but
exceeding the rolling-hour value limit only rejects that transaction and
installs no cooldown. -/
theorem C5_rate_limiting :
    (∀ (now : ℤ) (value : ℕ) (limits : RateLimits) (st : SenderRateState),
      cooldown_active now st = true →
      check_rate_limits now value limits st = (false, st)) ∧
    (∀ (now : ℤ) (value : ℕ) (limits : RateLimits) (st : SenderRateState),
      cooldown_active now st = false →
      (st.tx_times.filter (fun t => decide (now - t ≤ 60))).length ≥
        limits.max_transactions_per_minute →
      (check_rate_limits now value limits st).1 = false ∧
      (check_rate_limits now value limits st).2.cooldown_until =
        some (now + limits.cooldown_period)) ∧
    (∀ (now : ℤ) (value : ℕ) (limits : RateLimits) (st : SenderRateState),
      cooldown_active now st = false →
      (st.tx_times.filter (fun t => decide (now - t ≤ 60))).length <
        limits.max_transactions_per_minute →
      ((st.value_history.filter (fun p => decide (now - p.1 ≤ 3600))).map
        Prod.snd).sum + value > limits.max_value_per_hour →
      (check_rate_limits now value limits st).1 = false ∧
      (check_rate_limits now value limits st).2.cooldown_until =
        st.cooldown_until) := by
  refine ⟨?_, ?_, ?_⟩
  · intro now value limits st h
    simp only [check_rate_limits]
    rw [if_pos h]
  · intro now value limits st hcd hcnt
    simp only [check_rate_limits]
    split_ifs with h1
    · exact absurd h1 (by simp [hcd])
    · exact ⟨rfl, rfl⟩
  · intro now value limits st hcd hcnt hval
    simp only [check_rate_limits]
    split_ifs with h1 h2
    · exact absurd h1 (by simp [hcd])
    · exact absurd h2 (not_le.mpr hcnt)
    · exact ⟨rfl, rfl⟩

/-- Witness for C5: a sender with 10 transactions already inside the window
is rejected at the 11th and receives a cooldown stamp. -/
theorem C5_witness :
    (check_rate_limits 60 1 c5_limits
      { cooldown_until := none,
        tx_times := [10, 11, 12, 13, 14, 15, 16, 17, 18, 19],
        value_history := [] }).1 = false ∧
    (check_rate_limits 60 1 c5_limits
      { cooldown_until := none,
        tx_times := [10, 11, 12, 13, 14, 15, 16, 17, 18, 19],
        value_history := [] }).2.cooldown_until = some (60 + 300) :=
  C5_rate_limiting.2.1 60 1 c5_limits
    { cooldown_until := none,
      tx_times := [10, 11, 12, 13, 14, 15, 16, 17, 18, 19],
      value_history := [] } (by decide) (by decide)

/-- C9: a transaction rejected by the rate limiter — during a cooldown, at
the count limit, or over the rolling-hour value limit — is never appended to
the sender's transaction-count or value windows (the resulting windows are
sublists of the previous ones); only an accepted transaction is recorded, in
which case both windows gain exactly the new entry after pruning. -/
theorem C9_rejected_not_recorded :
    (∀ (now : ℤ) (value : ℕ) (limits : RateLimits) (st : SenderRateState),
      (check_rate_limits now value limits st).1 = false →
      (check_rate_limits now value limits st).2.tx_times.Sublist st.tx_times ∧
      (check_rate_limits now value limits st).2.value_history.Sublist
        st.value_history) ∧
    (∀ (now : ℤ) (value : ℕ) (limits : RateLimits) (st : SenderRateState),
      (check_rate_limits now value limits st).1 = true →
      (check_rate_limits now value limits st).2.tx_times =
        st.tx_times.filter (fun t => decide (now - t ≤ 60)) ++ [now] ∧
      (check_rate_limits now value limits st).2.value_history =
        st.value_history.filter (fun p => decide (now - p.1 ≤ 3600)) ++
          [(now, value)]) := by
  constructor
  · intro now value limits st h
    simp only [check_rate_limits] at h ⊢
    split_ifs at h ⊢ <;>
      first
        | exact ⟨List.Sublist.refl _, List.Sublist.refl _⟩
        | exact ⟨List.filter_sublist _, List.Sublist.refl _⟩
        | exact ⟨List.filter_sublist _, List.filter_sublist _⟩
  · intro now value limits st h
    simp only [check_rate_limits] at h ⊢
    split_ifs at h ⊢
    exact ⟨rfl, rfl⟩

/-- Witness for C9: the value-limit rejection of the C5 scenario leaves both
windows sublists of what they were. -/
theorem C9_witness :
    (check_rate_limits 10 30 c5_limits c5_state).2.tx_times.Sublist
      c5_state.tx_times ∧
    (check_rate_limits 10 30 c5_limits c5_state).2.value_history.Sublist
      c5_state.value_history :=
  C9_rejected_not_recorded.1 10 30 c5_limits c5_state (by decide)

open AuditTrail

/-- The retention policy `AuditTrail::new` installs (audit_trail.rs lines
165-171). -/
def defaultRetentionPolicy : RetentionPolicy :=
  { default_retention_days := 90, high_risk_retention_days := 365,
    compliance_retention_days := 2555, archive_after_days := 30,
    delete_after_days := 2555 }

/-- An old high-risk entry (timestamp 0, risk score 0.9): exempt from the
default retention window. -/
def c6_e1 : AuditEntry :=
  { id := "e1", entry_type := AuditEntryType.RiskAssessment, timestamp := 0,
    user_address := none, contract_address := none, gas_used := none,
    value := none, success := true, risk_score := some (9/10),
    security_flags := [] }

/-- An old normal entry (timestamp 1, no risk score): outside the default
retention window and not exempt. -/
def c6_e2 : AuditEntry :=
  { id := "e2", entry_type := AuditEntryType.TransactionExecuted,
    timestamp := 1, user_address := none, contract_address := none,
    gas_used := none, value := none, success := true, risk_score := none,
    security_flags := [] }

/-- A recent entry (timestamp 7776050, inside the 90-day window ending at
time 7776100). -/
def c6_e3 : AuditEntry :=
  { id := "e3", entry_type := AuditEntryType.TransactionExecuted,
    timestamp := 7776050, user_address := none, contract_address := none,
    gas_used := none, value := none, success := true, risk_score := none,
    security_flags := [] }

/-- Counterexample for C6: at time 7776100 with the 90-day default window
(cutoff 100), pruning the time-ordered log [old exempt, old non-exempt,
recent] keeps all three entries — the scan stops at the first retained entry
(the old high-risk one), so the old non-exempt entry e2 survives even though
it is outside its (default) retention window, contradicting "the surviving
set is exactly the entries within their respective retention windows". -/
theorem C6_counterexample :
    apply_retention_policy 7776100 defaultRetentionPolicy [c6_e1, c6_e2, c6_e3]
      = [c6_e1, c6_e2, c6_e3] ∧
    c6_e2.timestamp <
      7776100 - defaultRetentionPolicy.default_retention_days * 86400 ∧
    ¬(c6_e2.risk_score.getD 0 > 7/10 ∨
      c6_e2.entry_type = AuditEntryType.SecurityViolation) := by
  refine ⟨?_, by norm_num [c6_e2, defaultRetentionPolicy], ?_⟩
  · norm_num [apply_retention_policy, retention_loop, defaultRetentionPolicy,
      c6_e1]
  · exact not_or.mpr ⟨by norm_num [c6_e2], by decide⟩

/-- C6 (amended): the retention pass is exactly a `dropWhile` of the eviction
condition (older than the default cutoff and not exempt by risk score > 0.7
or type SecurityViolation) from the oldest entry forward: it evicts precisely
the maximal such prefix, stops at the first retained entry — so old exempt
entries are never evicted and may shield later out-of-window entries — and
the surviving log is always a suffix of the original (no later entry is
evicted while an earlier one is retained). -/
theorem C6_retention_prefix_scan :
    ∀ (cutoff : ℤ) (log : List AuditEntry),
      retention_loop cutoff log = log.dropWhile (retention_evict cutoff) ∧
      (retention_loop cutoff log).IsSuffix log := by
  intro cutoff log
  have hiff : ∀ e : AuditEntry, retention_evict cutoff e = true ↔
      (e.timestamp < cutoff ∧ ¬(e.risk_score.getD 0 > 7/10 ∨
        e.entry_type = AuditEntryType.SecurityViolation)) := by
    intro e
    simp [retention_evict, not_or]
  have hmain : ∀ l : List AuditEntry,
      retention_loop cutoff l = l.dropWhile (retention_evict cutoff) := by
    intro l
    induction l with
    | nil => rfl
    | cons e rest ih =>
      rw [List.dropWhile_cons]
      by_cases hev : retention_evict cutoff e = true
      · rw [if_pos hev]
        obtain ⟨h1, h2⟩ := (hiff e).mp hev
        unfold retention_loop
        rw [if_pos h1, if_pos h2]
        exact ih
      · rw [if_neg hev]
        unfold retention_loop
        rcases not_and_or.mp ((hiff e).not.mp hev) with h1 | h2
        · rw [if_neg h1]
        · by_cases h1 : e.timestamp < cutoff
          · rw [if_pos h1, if_neg h2]
          · rw [if_neg h1]
  refine ⟨hmain log, ?_⟩
  rw [hmain log]
  exact List.dropWhile_suffix _

/-- Helper: whenever some enabled rule with action BlockTransaction matches
the entry, `check_compliance_rules` returns an error. -/
theorem check_compliance_blocks (rules : List ComplianceRule) (e : AuditEntry)
    (h : ∃ r ∈ rules, r.enabled = true ∧ rule_violation r.rule_type e = true ∧
      r.action = ComplianceAction.BlockTransaction) :
    ∃ msg, check_compliance_rules rules e = Except.error msg := by
  induction rules with
  | nil => simp at h
  | cons r0 rest ih =>
    obtain ⟨r, hr, hren, hrviol, hract⟩ := h
    rcases List.mem_cons.mp hr with rfl | hmem
    · unfold check_compliance_rules
      rw [if_neg (by simp [hren]), if_pos hrviol, hract]
      exact ⟨_, rfl⟩
    · unfold check_compliance_rules
      by_cases h0 : r0.enabled = false
      · rw [if_pos h0]
        exact ih ⟨r, hmem, hren, hrviol, hract⟩
      · rw [if_neg h0]
        by_cases hv : rule_violation r0.rule_type e = true
        · rw [if_pos hv]
          cases hax : r0.action <;>
            first
              | exact ⟨_, rfl⟩
              | exact ih ⟨r, hmem, hren, hrviol, hract⟩
        · rw [if_neg hv]
          exact ih ⟨r, hmem, hren, hrviol, hract⟩

/-- C10: when an enabled compliance rule with action BlockTransaction matches
the entry, `log_entry` returns the error and the audit-trail state is
completely unchanged — in particular the blocked entry is never appended to
the log (and hence never indexed or persisted). -/
theorem C10_blocked_entry_no_mutation :
    ∀ (st : AuditState) (now : ℤ) (entry : AuditEntry),
      (∃ r ∈ st.compliance_rules, r.enabled = true ∧
        rule_violation r.rule_type entry = true ∧
        r.action = ComplianceAction.BlockTransaction) →
      (log_entry st now entry).1 = st ∧
      (∃ msg, (log_entry st now entry).2 = Except.error msg) ∧
      (entry ∉ st.audit_log → entry ∉ (log_entry st now entry).1.audit_log) := by
  intro st now entry h
  obtain ⟨msg, hmsg⟩ := check_compliance_blocks st.compliance_rules entry h
  have h1 : (log_entry st now entry).1 = st := by
    simp [log_entry, hmsg]
  exact ⟨h1, ⟨msg, by simp [log_entry, hmsg]⟩,
    fun hnotin => by rw [h1]; exact hnotin⟩

/-- A compliance rule blocking transactions whose value exceeds 100. -/
def c10_rule : ComplianceRule :=
  { name := "high_value", description := "value capped at 100",
    rule_type := ComplianceRuleType.TransactionValue 100,
    action := ComplianceAction.BlockTransaction, enabled := true }

/-- An audit-trail state with only the blocking rule installed. -/
def c10_state : AuditState :=
  { audit_log := [], indexed_entries := [], compliance_rules := [c10_rule],
    retention_policy := defaultRetentionPolicy }

/-- An entry that violates the blocking rule (value 500 > 100). -/
def c10_entry : AuditEntry :=
  { id := "x", entry_type := AuditEntryType.TransactionSubmitted,
    timestamp := 50, user_address := some 1, contract_address := some 2,
    gas_used := none, value := some 500, success := true, risk_score := none,
    security_flags := [] }

/-- Witness for C10: logging a value-500 entry against the value-100
blocking rule leaves the state unchanged. -/
theorem C10_witness : (log_entry c10_state 100 c10_entry).1 = c10_state :=
  (C10_blocked_entry_no_mutation c10_state 100 c10_entry
    ⟨c10_rule, by simp [c10_state], rfl, by decide, rfl⟩).1

end BlockchainDemo
